import Mathlib

/-!
Verification of the mzQC viewer's core: the metric chart selector
(`create_plot_from_metric`) and the document parser (`parse_mzqc`)
from `src/app.py`, shallowly embedded over a JSON value type.
-/

/-- A JSON value as handled by the viewer: number, string, list, or mapping
(the shapes the chart selector and parser discriminate on). Objects keep
their members in iteration (insertion) order, as Python dicts do; a mapping
has distinct keys. -/
inductive Json : Type where
  | num : Rat → Json
  | str : String → Json
  | arr : List Json → Json
  | obj : List (String × Json) → Json

/-- `isinstance(x, (int, float))` on a JSON value. -/
def Json.isNum : Json → Bool
  | .num _ => true
  | _ => false

/-- `isinstance(x, str)` on a JSON value. -/
def Json.isStr : Json → Bool
  | .str _ => true
  | _ => false

/-- The chart variants the selector can produce (`app.py` lines 169-231).
`ScalarBar` carries the metric name as label and the numeric value (line 171);
`SeriesLine` carries the `(Index, Value)` rows of the line-chart DataFrame
(line 180); `CategoryBar` carries the `(Category, Value)` rows of the bar-chart
DataFrame (lines 199-202, 210-213, 222); `Unrenderable` is the `return None`
at line 231. -/
inductive Chart : Type where
  | ScalarBar (label : String) (value : Rat)
  | SeriesLine (points : List (Nat × Json))
  | CategoryBar (pairs : List (Json × Json))
  | Unrenderable

/-- The dictionary fallback of `create_plot_from_metric` (`app.py` lines
221-229): build `(key, value)` rows from the mapping's entries in iteration
order; if every entry value is numeric return the categorized bar chart,
otherwise fall to `return None` (line 231). -/
def dictFallback (l : List (String × Json)) : Chart :=
  if l.all (fun p => p.2.isNum) then
    Chart.CategoryBar (l.map (fun p => (Json.str p.1, p.2)))
  else
    Chart.Unrenderable

/-- `create_plot_from_metric` (`app.py` lines 155-231). The Python function
reads `metric_name` and `metric_value` out of the metric dict (lines 166-167);
the embedding takes them as the two arguments.
Case 1 (line 170): a number gives a scalar bar. Case 2 (line 179): a list
whose every element is numeric gives a line chart over `(index, value)` rows.
Case 3 (line 189): for a mapping, if there are exactly two keys and both
values are lists (line 192) of equal length (line 196), an all-string /
all-numeric split zips them with the string list as the category column
(lines 198-219, in either key order); every other mapping goes to the
entry-wise fallback (lines 221-229). Anything else returns `None`
(line 231). -/
def create_plot_from_metric (metric_name : String) (metric_value : Json) : Chart :=
  match metric_value with
  | .num n => Chart.ScalarBar metric_name n
  | .arr xs =>
      if xs.all Json.isNum then Chart.SeriesLine xs.enum else Chart.Unrenderable
  | .obj l =>
      match l with
      | [(_, .arr list1), (_, .arr list2)] =>
          if list1.length = list2.length then
            if list1.all Json.isStr && list2.all Json.isNum then
              Chart.CategoryBar (list1.zip list2)
            else if list1.all Json.isNum && list2.all Json.isStr then
              Chart.CategoryBar (list2.zip list1)
            else dictFallback l
          else dictFallback l
      | _ => dictFallback l
  | .str _ => Chart.Unrenderable

/-- Exactly the condition under which `create_plot_from_metric` classifies a
mapping through the two-list special case (`app.py` lines 192-219) instead of
the fallback: exactly two keys, both values lists of equal length, one list
all-string and the other all-numeric. -/
def matchesTwoListRule : List (String × Json) → Bool
  | [(_, .arr list1), (_, .arr list2)] =>
      (list1.length == list2.length) &&
        ((list1.all Json.isStr && list2.all Json.isNum) ||
         (list1.all Json.isNum && list2.all Json.isStr))
  | _ => false

/-- The normalized document `parse_mzqc` returns (`app.py` lines 28-37).
Fields hold whatever JSON value the corresponding `.get` produced. -/
structure MzqcDoc where
  version : Json
  creation_date : Json
  description : Json
  contact_name : Json
  contact_address : Json
  run_qualities : Json
  set_qualities : Json
  controlled_vocabularies : Json

/-- Python's `x.get(key, default)`: on a dict it returns the value bound to
`key` (first binding) or the default; on any non-dict value the attribute
access raises `AttributeError`. -/
def Json.get : Json → String → Json → Except String Json
  | .obj l, k, d => Except.ok ((l.lookup k).getD d)
  | _, _, _ => Except.error "AttributeError"

/-- `parse_mzqc` (`app.py` lines 6-37): pull the `mzQC` root (default `{}`),
then read each field off it with its documented default (`"N/A"` for the
string fields, `[]` for the list fields). Each `.get` raises `AttributeError`
when its receiver is not a dict, which the embedding surfaces as
`Except.error`. -/
def parse_mzqc (json_data : Json) : Except String MzqcDoc := do
  let mzqc_root ← json_data.get "mzQC" (Json.obj [])
  let version ← mzqc_root.get "version" (Json.str "N/A")
  let creation_date ← mzqc_root.get "creationDate" (Json.str "N/A")
  let description ← mzqc_root.get "description" (Json.str "N/A")
  let contact_name ← mzqc_root.get "contactName" (Json.str "N/A")
  let contact_address ← mzqc_root.get "contactAddress" (Json.str "N/A")
  let run_qualities ← mzqc_root.get "runQualities" (Json.arr [])
  let set_qualities ← mzqc_root.get "setQualities" (Json.arr [])
  let cv_list ← mzqc_root.get "controlledVocabularies" (Json.arr [])
  return { version := version
           creation_date := creation_date
           description := description
           contact_name := contact_name
           contact_address := contact_address
           run_qualities := run_qualities
           set_qualities := set_qualities
           controlled_vocabularies := cv_list }

/-! ### Helper lemmas -/

theorem Json.isStr_eq_false_of_isNum {j : Json} (h : j.isNum = true) : j.isStr = false := by
  cases j <;> simp_all [Json.isNum, Json.isStr]

theorem Json.isNum_eq_false_of_isStr {j : Json} (h : j.isStr = true) : j.isNum = false := by
  cases j <;> simp_all [Json.isNum, Json.isStr]

/-- A nonempty all-numeric list is not all-string. -/
theorem all_isStr_eq_false {xs : List Json} (h : xs.all Json.isNum = true) (hne : xs ≠ []) :
    xs.all Json.isStr = false := by
  cases xs with
  | nil => exact absurd rfl hne
  | cons x t =>
      simp only [List.all_cons, Bool.and_eq_true] at h
      simp [Json.isStr_eq_false_of_isNum h.1]

/-- A nonempty all-string list is not all-numeric. -/
theorem all_isNum_eq_false {xs : List Json} (h : xs.all Json.isStr = true) (hne : xs ≠ []) :
    xs.all Json.isNum = false := by
  cases xs with
  | nil => exact absurd rfl hne
  | cons x t =>
      simp only [List.all_cons, Bool.and_eq_true] at h
      simp [Json.isNum_eq_false_of_isStr h.1]

/-- Whenever a mapping fails the two-list special case, the selector classifies
it through the entry-wise fallback (`app.py` lines 221-229). -/
theorem create_plot_obj_fallthrough (name : String) :
    ∀ l : List (String × Json), matchesTwoListRule l = false →
      create_plot_from_metric name (Json.obj l) = dictFallback l
  | [], _ => rfl
  | [(_, v)], _ => by cases v <;> rfl
  | ((_, v1) :: (_, v2) :: _ :: _), _ => by cases v1 <;> cases v2 <;> rfl
  | [(k1, v1), (k2, v2)], h => by
      cases v1 <;> cases v2 <;> try rfl
      case arr.arr list1 list2 =>
        by_cases hlen : list1.length = list2.length
        · by_cases hA : (list1.all Json.isStr && list2.all Json.isNum) = true
          · exact absurd h (by simp [matchesTwoListRule, hlen, hA])
          · by_cases hB : (list1.all Json.isNum && list2.all Json.isStr) = true
            · exact absurd h (by simp [matchesTwoListRule, hlen, hB])
            · simp only [create_plot_from_metric]
              rw [if_pos hlen, if_neg hA, if_neg hB]
        · simp only [create_plot_from_metric]
          rw [if_neg hlen]


/-! ### Claim theorems -/

/-- C1: for a two-key mapping whose two values are equal-length lists, one
all-string and one all-numeric, the selector returns `CategoryBar` pairing the
string list as categories with the number list as values, in either key
order (the swap rule). -/
theorem two_list_swap_rule (name k1 k2 : String) (s n : List Json) (_hk : k1 ≠ k2)
    (hs : s.all Json.isStr = true) (hn : n.all Json.isNum = true)
    (hlen : s.length = n.length) :
    create_plot_from_metric name (Json.obj [(k1, Json.arr s), (k2, Json.arr n)]) =
      Chart.CategoryBar (s.zip n) ∧
    create_plot_from_metric name (Json.obj [(k1, Json.arr n), (k2, Json.arr s)]) =
      Chart.CategoryBar (s.zip n) := by
  constructor
  · simp only [create_plot_from_metric]
    rw [if_pos hlen, if_pos (by simp [hs, hn])]
  · simp only [create_plot_from_metric]
    rw [if_pos hlen.symm]
    cases s with
    | nil =>
        cases n with
        | nil => rfl
        | cons y ys =>
            simp only [List.length_nil, List.length_cons] at hlen
            omega
    | cons x t =>
        have hxf : (x :: t).all Json.isNum = false :=
          all_isNum_eq_false hs (by simp)
        rw [if_neg (by simp [hxf]), if_pos (by simp [hn, hs])]

/-- Witness for C1 at the concrete mappings of the spec examples. -/
theorem two_list_swap_rule_witness :
    ("a" : String) ≠ "b" ∧
    [Json.str "x", Json.str "y"].all Json.isStr = true ∧
    [Json.num 1, Json.num 2].all Json.isNum = true ∧
    [Json.str "x", Json.str "y"].length = [Json.num 1, Json.num 2].length ∧
    (create_plot_from_metric "m"
        (Json.obj [("a", Json.arr [Json.str "x", Json.str "y"]),
                   ("b", Json.arr [Json.num 1, Json.num 2])]) =
      Chart.CategoryBar [(Json.str "x", Json.num 1), (Json.str "y", Json.num 2)] ∧
     create_plot_from_metric "m"
        (Json.obj [("a", Json.arr [Json.num 1, Json.num 2]),
                   ("b", Json.arr [Json.str "x", Json.str "y"])]) =
      Chart.CategoryBar [(Json.str "x", Json.num 1), (Json.str "y", Json.num 2)]) :=
  ⟨by decide, rfl, rfl, rfl,
   two_list_swap_rule "m" "a" "b" [Json.str "x", Json.str "y"]
     [Json.num 1, Json.num 2] (by decide) rfl rfl rfl⟩

/-- C2 counterexample: for the mapping with two empty lists, both lists are
vacuously all-numeric (and all-string) with equal length, yet the selector
does NOT fall through to the entry-wise fallback: rule 3a fires and zips the
two empty lists into an empty `CategoryBar`, while the fallback would have
given `Unrenderable` (the entries are list-valued, hence non-numeric). -/
theorem two_empty_lists_counterexample :
    create_plot_from_metric "m" (Json.obj [("a", Json.arr []), ("b", Json.arr [])]) =
      Chart.CategoryBar [] ∧
    dictFallback [("a", Json.arr []), ("b", Json.arr [])] = Chart.Unrenderable ∧
    Chart.CategoryBar [] ≠ Chart.Unrenderable :=
  ⟨rfl, rfl, fun h => Chart.noConfusion h⟩

/-- C2 amended: for a two-key mapping of two lists that are both all-numeric,
or both all-string, or of differing lengths, the selector falls through to
the entry-wise fallback — provided the two lists are not both empty (two
empty lists satisfy the vacuous all-string/all-numeric checks and are zipped
by rule 3a into an empty `CategoryBar` instead). On the fallback such a
mapping yields `Unrenderable`, since its entry values are lists. -/
theorem two_list_fallthrough_amended (name k1 k2 : String) (l1 l2 : List Json)
    (_hk : k1 ≠ k2)
    (hcond : (l1.all Json.isNum = true ∧ l2.all Json.isNum = true) ∨
             (l1.all Json.isStr = true ∧ l2.all Json.isStr = true) ∨
             l1.length ≠ l2.length)
    (hne : l1 ≠ [] ∨ l2 ≠ []) :
    create_plot_from_metric name (Json.obj [(k1, Json.arr l1), (k2, Json.arr l2)]) =
      dictFallback [(k1, Json.arr l1), (k2, Json.arr l2)] ∧
    create_plot_from_metric name (Json.obj [(k1, Json.arr l1), (k2, Json.arr l2)]) =
      Chart.Unrenderable := by
  have hrule : matchesTwoListRule [(k1, Json.arr l1), (k2, Json.arr l2)] = false := by
    by_cases hlen : l1.length = l2.length
    · have hb12 : l1 ≠ [] ∧ l2 ≠ [] := by
        cases l1 with
        | nil =>
            cases l2 with
            | nil => simp at hne
            | cons b t2 =>
                simp only [List.length_nil, List.length_cons] at hlen
                omega
        | cons a t1 =>
            cases l2 with
            | nil =>
                simp only [List.length_nil, List.length_cons] at hlen
                omega
            | cons b t2 => exact ⟨by simp, by simp⟩
      rcases hcond with ⟨ha, hb⟩ | ⟨ha, hb⟩ | hx
      · simp [matchesTwoListRule, all_isStr_eq_false ha hb12.1,
              all_isStr_eq_false hb hb12.2]
      · simp [matchesTwoListRule, all_isNum_eq_false ha hb12.1,
              all_isNum_eq_false hb hb12.2]
      · exact absurd hlen hx
    · have hb : (l1.length == l2.length) = false := by
        cases hq : (l1.length == l2.length) with
        | false => rfl
        | true => exact absurd (eq_of_beq hq) hlen
      simp [matchesTwoListRule, hb]
  have h1 := create_plot_obj_fallthrough name _ hrule
  refine ⟨h1, h1.trans ?_⟩
  simp [dictFallback, Json.isNum]

/-- Witness for C2 (amended) at two all-numeric singleton lists. -/
theorem two_list_fallthrough_amended_witness :
    ("a" : String) ≠ "b" ∧
    ([Json.num 1].all Json.isNum = true ∧ [Json.num 2].all Json.isNum = true) ∧
    ([Json.num 1] : List Json) ≠ [] ∧
    (create_plot_from_metric "m"
        (Json.obj [("a", Json.arr [Json.num 1]), ("b", Json.arr [Json.num 2])]) =
      dictFallback [("a", Json.arr [Json.num 1]), ("b", Json.arr [Json.num 2])] ∧
     create_plot_from_metric "m"
        (Json.obj [("a", Json.arr [Json.num 1]), ("b", Json.arr [Json.num 2])]) =
      Chart.Unrenderable) :=
  ⟨by decide, ⟨rfl, rfl⟩, by simp,
   two_list_fallthrough_amended "m" "a" "b" [Json.num 1] [Json.num 2]
     (by decide) (Or.inl ⟨rfl, rfl⟩) (Or.inl (by simp))⟩

/-- C3: a mapping that does not match the two-list special case is classified
by the fallback: `CategoryBar` over its `(key, value)` entries in iteration
order when every entry value is numeric, `Unrenderable` otherwise. -/
theorem dict_fallback_classification (name : String) (l : List (String × Json))
    (h : matchesTwoListRule l = false) :
    create_plot_from_metric name (Json.obj l) =
      if l.all (fun p => p.2.isNum) then
        Chart.CategoryBar (l.map (fun p => (Json.str p.1, p.2)))
      else Chart.Unrenderable := by
  rw [create_plot_obj_fallthrough name l h]; rfl

/-- Witness for C3 at the all-numeric two-entry mapping of the spec example. -/
theorem dict_fallback_classification_witness :
    matchesTwoListRule [("cat1", Json.num 5), ("cat2", Json.num 10)] = false ∧
    create_plot_from_metric "m" (Json.obj [("cat1", Json.num 5), ("cat2", Json.num 10)]) =
      Chart.CategoryBar [(Json.str "cat1", Json.num 5), (Json.str "cat2", Json.num 10)] :=
  ⟨rfl, (dict_fallback_classification "m" [("cat1", Json.num 5), ("cat2", Json.num 10)]
          rfl).trans rfl⟩

/-- C4: a list whose every element is numeric (including the empty list)
yields `SeriesLine` pairing each element with its 0-based index; the empty
list yields a `SeriesLine` with zero points. -/
theorem numeric_list_series (name : String) (xs : List Json)
    (h : xs.all Json.isNum = true) :
    create_plot_from_metric name (Json.arr xs) =
      Chart.SeriesLine ((List.range xs.length).zip xs) ∧
    create_plot_from_metric name (Json.arr []) = Chart.SeriesLine [] := by
  constructor
  · simp only [create_plot_from_metric]
    rw [if_pos h, List.enum_eq_zip_range]
  · rfl

/-- Witness for C4 at a concrete two-element numeric list. -/
theorem numeric_list_series_witness :
    [Json.num 5, Json.num 7].all Json.isNum = true ∧
    (create_plot_from_metric "m" (Json.arr [Json.num 5, Json.num 7]) =
      Chart.SeriesLine [(0, Json.num 5), (1, Json.num 7)] ∧
     create_plot_from_metric "m" (Json.arr []) = Chart.SeriesLine []) :=
  ⟨rfl, numeric_list_series "m" [Json.num 5, Json.num 7] rfl⟩

/-- C5: a single numeric value yields `ScalarBar` carrying exactly that value
and the metric name as label. -/
theorem scalar_bar_exact (name : String) (x : Rat) :
    create_plot_from_metric name (Json.num x) = Chart.ScalarBar name x := rfl

/-- C6: a string scalar, a list with a non-numeric element, and a mapping
matching neither the two-list rule nor the all-numeric fallback all yield
`Unrenderable` (no chart), never an error. -/
theorem unrenderable_cases (name s : String) (xs : List Json)
    (l : List (String × Json))
    (hxs : ∃ x ∈ xs, x.isNum = false)
    (hl1 : matchesTwoListRule l = false)
    (hl2 : l.all (fun p => p.2.isNum) = false) :
    create_plot_from_metric name (Json.str s) = Chart.Unrenderable ∧
    create_plot_from_metric name (Json.arr xs) = Chart.Unrenderable ∧
    create_plot_from_metric name (Json.obj l) = Chart.Unrenderable := by
  refine ⟨rfl, ?_, ?_⟩
  · have hall : xs.all Json.isNum = false := by
      rcases hxs with ⟨x, hmem, hx⟩
      cases hq : xs.all Json.isNum with
      | false => rfl
      | true =>
          rw [List.all_eq_true] at hq
          exact absurd (hq x hmem) (by simp [hx])
    simp only [create_plot_from_metric]
    rw [if_neg (by simp [hall])]
  · rw [create_plot_obj_fallthrough name l hl1]
    simp only [dictFallback]
    rw [if_neg (by simp [hl2])]

/-- Witness for C6 at the spec examples: the string list and the mapping with
a string-typed entry value. -/
theorem unrenderable_cases_witness :
    (∃ x ∈ [Json.str "a", Json.str "b"], x.isNum = false) ∧
    matchesTwoListRule [("cat1", Json.num 5), ("cat2", Json.str "bad")] = false ∧
    [("cat1", Json.num 5), ("cat2", Json.str "bad")].all (fun p => p.2.isNum) = false ∧
    (create_plot_from_metric "m" (Json.str "a") = Chart.Unrenderable ∧
     create_plot_from_metric "m" (Json.arr [Json.str "a", Json.str "b"]) =
       Chart.Unrenderable ∧
     create_plot_from_metric "m"
        (Json.obj [("cat1", Json.num 5), ("cat2", Json.str "bad")]) =
       Chart.Unrenderable) :=
  ⟨⟨Json.str "a", by simp, rfl⟩, rfl, rfl,
   unrenderable_cases "m" "a" [Json.str "a", Json.str "b"]
     [("cat1", Json.num 5), ("cat2", Json.str "bad")]
     ⟨Json.str "a", by simp, rfl⟩ rfl rfl⟩

/-- C7 counterexample: the parser is not total over arbitrary JSON values.
For a non-object root (a JSON list) and for an `mzQC` key bound to a
non-object, the attribute access raises `AttributeError` instead of
returning a normalized document. -/
theorem parse_raises_counterexample :
    parse_mzqc (Json.arr []) = Except.error "AttributeError" ∧
    parse_mzqc (Json.num 3) = Except.error "AttributeError" ∧
    parse_mzqc (Json.obj [("mzQC", Json.num 3)]) = Except.error "AttributeError" :=
  ⟨rfl, rfl, rfl⟩

/-- C7 amended: parsing succeeds and returns the normalized document whenever
the root is a JSON object and its `mzQC` member resolves to an object (in
particular when `mzQC` is absent, defaulting to the empty object); every
field is read with its documented default. For a non-object root or a
non-object `mzQC` value the parser raises `AttributeError` (see the
counterexample). -/
theorem parse_ok_amended (l m : List (String × Json))
    (h : (l.lookup "mzQC").getD (Json.obj []) = Json.obj m) :
    parse_mzqc (Json.obj l) = Except.ok
      { version := (m.lookup "version").getD (Json.str "N/A")
        creation_date := (m.lookup "creationDate").getD (Json.str "N/A")
        description := (m.lookup "description").getD (Json.str "N/A")
        contact_name := (m.lookup "contactName").getD (Json.str "N/A")
        contact_address := (m.lookup "contactAddress").getD (Json.str "N/A")
        run_qualities := (m.lookup "runQualities").getD (Json.arr [])
        set_qualities := (m.lookup "setQualities").getD (Json.arr [])
        controlled_vocabularies :=
          (m.lookup "controlledVocabularies").getD (Json.arr []) } := by
  have hroot : Json.get (Json.obj l) "mzQC" (Json.obj []) = Except.ok (Json.obj m) := by
    simp only [Json.get, h]
  unfold parse_mzqc
  rw [hroot]
  rfl

/-- Witness for C7 (amended) at a root whose `mzQC` object carries a version. -/
theorem parse_ok_amended_witness :
    (([("mzQC", Json.obj [("version", Json.str "1.0")])].lookup "mzQC").getD
        (Json.obj []) = Json.obj [("version", Json.str "1.0")]) ∧
    parse_mzqc (Json.obj [("mzQC", Json.obj [("version", Json.str "1.0")])]) =
      Except.ok
        { version := Json.str "1.0", creation_date := Json.str "N/A"
          description := Json.str "N/A", contact_name := Json.str "N/A"
          contact_address := Json.str "N/A", run_qualities := Json.arr []
          set_qualities := Json.arr [], controlled_vocabularies := Json.arr [] } :=
  ⟨rfl, (parse_ok_amended [("mzQC", Json.obj [("version", Json.str "1.0")])]
          [("version", Json.str "1.0")] rfl).trans rfl⟩

/-- C8: parsing an object lacking the `mzQC` root key yields the document of
documented defaults: the `"N/A"` string for the five scalar fields and the
empty list for the three collection fields. -/
theorem parse_missing_root_defaults (l : List (String × Json))
    (h : l.lookup "mzQC" = none) :
    parse_mzqc (Json.obj l) = Except.ok
      { version := Json.str "N/A", creation_date := Json.str "N/A"
        description := Json.str "N/A", contact_name := Json.str "N/A"
        contact_address := Json.str "N/A", run_qualities := Json.arr []
        set_qualities := Json.arr [], controlled_vocabularies := Json.arr [] } := by
  have hroot : Json.get (Json.obj l) "mzQC" (Json.obj []) =
      Except.ok (Json.obj []) := by
    simp only [Json.get, h, Option.getD_none]
  unfold parse_mzqc
  rw [hroot]
  rfl

/-- Witness for C8 at an object with an unrelated key. -/
theorem parse_missing_root_defaults_witness :
    ([("foo", Json.num 1)].lookup "mzQC" = none) ∧
    parse_mzqc (Json.obj [("foo", Json.num 1)]) = Except.ok
      { version := Json.str "N/A", creation_date := Json.str "N/A"
        description := Json.str "N/A", contact_name := Json.str "N/A"
        contact_address := Json.str "N/A", run_qualities := Json.arr []
        set_qualities := Json.arr [], controlled_vocabularies := Json.arr [] } :=
  ⟨rfl, parse_missing_root_defaults [("foo", Json.num 1)] rfl⟩

/-- C9: the selector and the parser are total pure functions of their
arguments in the embedding: on every JSON value the selector returns one of
the four chart variants (which are pairwise distinct constructors), and two
runs on equal inputs yield equal outputs. -/
theorem selector_pure_total (name : String) (v : Json) :
    ((∃ lab x, create_plot_from_metric name v = Chart.ScalarBar lab x) ∨
     (∃ pts, create_plot_from_metric name v = Chart.SeriesLine pts) ∨
     (∃ prs, create_plot_from_metric name v = Chart.CategoryBar prs) ∨
     create_plot_from_metric name v = Chart.Unrenderable) ∧
    create_plot_from_metric name v = create_plot_from_metric name v ∧
    parse_mzqc v = parse_mzqc v := by
  refine ⟨?_, rfl, rfl⟩
  cases create_plot_from_metric name v with
  | ScalarBar lab x => exact Or.inl ⟨lab, x, rfl⟩
  | SeriesLine pts => exact Or.inr (Or.inl ⟨pts, rfl⟩)
  | CategoryBar prs => exact Or.inr (Or.inr (Or.inl ⟨prs, rfl⟩))
  | Unrenderable => exact Or.inr (Or.inr (Or.inr rfl))

/-- C10: the empty mapping satisfies the fallback check vacuously, so the
selector returns `CategoryBar` with zero pairs rather than `Unrenderable`. -/
theorem empty_mapping_fallback (name : String) :
    create_plot_from_metric name (Json.obj []) = Chart.CategoryBar [] := rfl
